import Mathlib

/-!
Verification development for the Smart B-Roll Inserter core:
the global allocation engine, the timeline builder, the renderer's
validity filtering and the artifact cleanup scheduler.

Numbers that the JavaScript source handles as IEEE doubles are modelled
as exact rationals (`ℚ`); identifiers are `String`s.  JavaScript `Set`s
and `Map`s are modelled as lists (respectively association lists) in
insertion order, which is faithful here because the source only ever
adds an element to `usedBrolls` after checking it is absent.
-/

namespace SmartBroll

/-- A candidate match as produced by `buildSimilarityMatrix`
(src/unnamed/part_004, lines 59-68). -/
structure Match where
  aroll_id : String
  segment_id : String
  segment_text : String
  segment_start : ℚ
  segment_end : ℚ
  broll_id : String
  broll_description : String
  similarity : ℚ
deriving DecidableEq

/-- An accepted allocation, built field by field from a match
(src/unnamed/part_004, lines 141-149). -/
structure Allocation where
  aroll_id : String
  segment_id : String
  start_sec : ℚ
  broll_id : String
  broll_description : String
  segment_text : String
  confidence : ℚ
deriving DecidableEq

/-- The allocator configuration: `MAX_INSERTIONS_PER_AROLL`,
`MIN_GAP_SECONDS` and `MIN_CONFIDENCE` (src/unnamed/part_004,
lines 118-120).  The source reads these from the environment with
defaults 5, 4 and 0.45; we parameterise over them. -/
structure Config where
  maxInsertionsPerAroll : Nat
  minGapSeconds : ℚ
  minConfidence : ℚ
deriving DecidableEq

/-- The environment-default configuration of src/unnamed/part_004. -/
def defaultConfig : Config :=
  { maxInsertionsPerAroll := 5, minGapSeconds := 4, minConfidence := 0.45 }

/-- Association-list lookup, modelling `Map.prototype.get`. -/
def mapGet (m : List (String × List Allocation)) (k : String) :
    Option (List Allocation) :=
  match m with
  | [] => none
  | (k', v) :: t => if k' = k then some v else mapGet t k

/-- Modelling lines 155-158 of src/unnamed/part_004: create the key with
an empty list when absent, then push the allocation onto its list. -/
def mapPush (m : List (String × List Allocation)) (k : String)
    (a : Allocation) : List (String × List Allocation) :=
  match m with
  | [] => [(k, [a])]
  | (k', v) :: t => if k' = k then (k', v ++ [a]) :: t else (k', v) :: mapPush t k a

/-- Function `canAllocate` (src/unnamed/part_004, lines 174-201): the four
acceptance constraints, checked in source order. -/
def canAllocate (cfg : Config) (m : Match) (usedBrolls : List String)
    (arollInsertions : List (String × List Allocation)) : Bool :=
  -- Constraint 1: B-roll not already used
  if m.broll_id ∈ usedBrolls then
    false
  -- Constraint 2: minimum confidence threshold
  else if m.similarity < cfg.minConfidence then
    false
  else
    let arollAllocs := (mapGet arollInsertions m.aroll_id).getD []
    -- Constraint 3: max insertions per A-roll
    if cfg.maxInsertionsPerAroll ≤ arollAllocs.length then
      false
    -- Constraint 4: minimum time gap within the same A-roll
    else
      arollAllocs.all fun existing =>
        !decide (|m.segment_start - existing.start_sec| < cfg.minGapSeconds)

/-- Promotion of a match into an allocation
(src/unnamed/part_004, lines 141-149). -/
def toAllocation (m : Match) : Allocation :=
  { aroll_id := m.aroll_id
    segment_id := m.segment_id
    start_sec := m.segment_start
    broll_id := m.broll_id
    broll_description := m.broll_description
    segment_text := m.segment_text
    confidence := m.similarity }

/-- The allocator's running state: the used-B-roll set, the per-A-roll
insertion map and the accepted list (src/unnamed/part_004, lines 130-132). -/
structure AllocState where
  usedBrolls : List String
  arollInsertions : List (String × List Allocation)
  allocations : List Allocation
deriving DecidableEq

/-- One iteration of the allocation loop
(src/unnamed/part_004, lines 134-159). -/
def allocStep (cfg : Config) (st : AllocState) (m : Match) : AllocState :=
  if canAllocate cfg m st.usedBrolls st.arollInsertions then
    let a := toAllocation m
    { usedBrolls := st.usedBrolls ++ [m.broll_id]
      arollInsertions := mapPush st.arollInsertions m.aroll_id a
      allocations := st.allocations ++ [a] }
  else
    st

/-- The allocator's statistics object (src/unnamed/part_004, lines 163-167). -/
structure AllocStats where
  totalAllocations : Nat
  brollsUsed : Nat
  arollsCovered : Nat
deriving DecidableEq

/-- The allocator's return value (src/unnamed/part_004, lines 161-168). -/
structure AllocResult where
  allocations : List Allocation
  stats : AllocStats
deriving DecidableEq

/-- Function `allocateBrolls` (src/unnamed/part_004, lines 128-169): a single
greedy sweep over the matches, threading the running state. -/
def allocateBrolls (cfg : Config) (sortedMatches : List Match) : AllocResult :=
  let st := sortedMatches.foldl (allocStep cfg) ⟨[], [], []⟩
  { allocations := st.allocations
    stats :=
      { totalAllocations := st.allocations.length
        brollsUsed := st.usedBrolls.length
        arollsCovered := st.arollInsertions.length } }

/-- First candidate of Scenario A: B-roll `b1` at second 2, confidence 0.9. -/
def scenarioAMatch1 : Match :=
  { aroll_id := "a1", segment_id := "s1", segment_text := "t1"
    segment_start := 2, segment_end := 4
    broll_id := "b1", broll_description := "d1", similarity := 0.9 }

/-- Second candidate of Scenario A: B-roll `b2` at second 3, confidence 0.8. -/
def scenarioAMatch2 : Match :=
  { aroll_id := "a1", segment_id := "s2", segment_text := "t2"
    segment_start := 3, segment_end := 5
    broll_id := "b2", broll_description := "d2", similarity := 0.8 }

/-- Third candidate of Scenario A: B-roll `b1` again, at second 10,
confidence 0.95. -/
def scenarioAMatch3 : Match :=
  { aroll_id := "a1", segment_id := "s3", segment_text := "t3"
    segment_start := 10, segment_end := 12
    broll_id := "b1", broll_description := "d1", similarity := 0.95 }

/-- The Scenario A candidate list, in its given order. -/
def scenarioA : List Match := [scenarioAMatch1, scenarioAMatch2, scenarioAMatch3]

/-- The allocator state after the first Scenario A candidate is processed. -/
def scenarioASt1 : AllocState := allocStep defaultConfig ⟨[], [], []⟩ scenarioAMatch1

/-- The allocator state after the first two Scenario A candidates. -/
def scenarioASt2 : AllocState := allocStep defaultConfig scenarioASt1 scenarioAMatch2

/-! ## Timeline builder (src/services/output/timeline_builder.js) -/

/-- Constant `DEFAULT_BROLL_DURATION` (timeline_builder.js, line 4): environment
value with default 5.0 seconds; we use the default. -/
def DEFAULT_BROLL_DURATION : ℚ := 5

/-- One timeline insertion (timeline_builder.js, lines 15-21). -/
structure Insertion where
  start_sec : ℚ
  duration_sec : ℚ
  broll_id : String
  confidence : ℚ
  reason : String
deriving DecidableEq

/-- A stored B-roll record, as placed in `brollMap`.  `description` and
`duration_sec` are the fields timeline_builder.js reads; `file_path` is
the field the renderer reads.  A JavaScript falsy field value (empty
string, zero) is representable directly. -/
structure BrollAsset where
  broll_id : String
  description : String
  duration_sec : ℚ
  file_path : String
deriving DecidableEq

/-- Lookup `brollMap.get(k)`: association-list lookup for B-roll records. -/
def brollFind (m : List (String × BrollAsset)) (k : String) : Option BrollAsset :=
  match m with
  | [] => none
  | (k', v) :: t => if k' = k then some v else brollFind t k

/-- The stop-word set of `extractKeywords`
(timeline_builder.js, lines 60-73). -/
def stopWords : List String :=
  ["the", "a", "an", "is", "are", "was", "were", "be", "been", "being",
   "have", "has", "had", "do", "does", "did", "will", "would", "could",
   "should", "may", "might", "must", "shall", "can", "of", "at", "by",
   "for", "with", "about", "against", "between", "into", "through",
   "during", "before", "after", "above", "below", "to", "from", "up",
   "down", "in", "out", "on", "off", "over", "under", "again", "further",
   "then", "once", "here", "there", "when", "where", "why", "how", "all",
   "each", "few", "more", "most", "other", "some", "such", "no", "nor",
   "not", "only", "own", "same", "so", "than", "too", "very", "and", "but",
   "if", "or", "because", "as", "until", "while", "this", "that", "these",
   "those", "it", "its", "he", "she", "they", "them", "their", "what",
   "which", "who", "whom", "me", "him", "her", "us", "i", "you", "we"]

/-- A regex `\w` character: alphanumeric or underscore. -/
def isWordChar (c : Char) : Bool := c.isAlphanum || c = '_'

/-- Split a character list into maximal whitespace-free words, modelling
`split(/\s+/)`.  (The JavaScript split can emit a leading empty string,
but `extractKeywords` filters on `length > 2`, so dropping empties here
is extensionally identical after that filter.) -/
def splitWordsAux : List Char → List Char → List String
  | [], cur => if cur.isEmpty then [] else [String.mk cur.reverse]
  | c :: t, cur =>
    if c.isWhitespace then
      if cur.isEmpty then splitWordsAux t []
      else String.mk cur.reverse :: splitWordsAux t []
    else
      splitWordsAux t (c :: cur)

/-- Function `extractKeywords` (timeline_builder.js, lines 57-79): lowercase,
strip characters that are neither `\w` nor `\s`, split on whitespace,
keep words longer than 2 that are not stop words.  (`text` is always a
`String` here; the `!text` null guard of line 58 is subsumed by the
empty string, which yields `[]` the same way.) -/
def extractKeywords (text : String) : List String :=
  let cleaned := (text.toList.map Char.toLower).filter fun c =>
    isWordChar c || c.isWhitespace
  (splitWordsAux cleaned []).filter fun w =>
    decide (2 < w.length) && !stopWords.contains w

/-- Test that `needle` occurs as a contiguous substring of `hay`
(JavaScript `String.prototype.includes`). -/
def strContains (hay needle : List Char) : Bool :=
  match hay with
  | [] => needle.isEmpty
  | _ :: t => needle.isPrefixOf hay || strContains t needle

/-- Function `generateReason` (timeline_builder.js, lines 37-52).  The apostrophes
of the source template literal are written `\x27`; `slice(0, 50)` is
modelled by `String.take 50`. -/
def generateReason (segmentText brollDescription : String) : String :=
  let segmentWords := extractKeywords segmentText
  let brollWords := extractKeywords brollDescription
  let commonWords := segmentWords.filter fun w =>
    brollWords.any fun bw =>
      strContains bw.toList w.toList || strContains w.toList bw.toList
  if 0 < commonWords.length then
    "Speaker discusses \x27" ++ segmentText.take 50 ++ "...\x27; matched with "
      ++ brollDescription
  else
    "Semantic match: speaker content aligned with B-roll visuals ("
      ++ brollDescription ++ ")"

/-- The insertion built from one allocation (timeline_builder.js,
lines 11-22).  JavaScript `x || y` on a number falls back when `x` is
falsy (absent or `0`), and on a string when `x` is falsy (absent or
`""`); both are modelled by the explicit zero / empty-string tests. -/
def mkInsertion (brollMap : List (String × BrollAsset)) (alloc : Allocation) :
    Insertion :=
  let broll := brollFind brollMap alloc.broll_id
  let desc :=
    match broll with
    | some b => if b.description = "" then alloc.broll_description else b.description
    | none => alloc.broll_description
  { start_sec := alloc.start_sec
    duration_sec :=
      match broll with
      | some b => if b.duration_sec = 0 then DEFAULT_BROLL_DURATION else b.duration_sec
      | none => DEFAULT_BROLL_DURATION
    broll_id := alloc.broll_id
    confidence := alloc.confidence
    reason := generateReason alloc.segment_text desc }

/-- The timeline object returned by `buildTimelineJson`
(timeline_builder.js, lines 27-31). -/
structure Timeline where
  aroll_id : String
  aroll_duration_sec : ℚ
  insertions : List Insertion
deriving DecidableEq

/-- The comparator `(a, b) => a.start_sec - b.start_sec` of
timeline_builder.js, line 25, as the ordering it induces. -/
def insLE (a b : Insertion) : Prop := a.start_sec ≤ b.start_sec

instance : DecidableRel insLE := fun a b =>
  inferInstanceAs (Decidable (a.start_sec ≤ b.start_sec))

instance : IsTotal Insertion insLE := ⟨fun _ _ => le_total _ _⟩

instance : IsTrans Insertion insLE := ⟨fun _ _ _ h h' => le_trans h h'⟩

/-- Function `buildTimelineJson` (timeline_builder.js, lines 10-32): map each
allocation to an insertion, then sort by start time.  `Array.prototype.sort`
is a stable sort, modelled by `List.insertionSort`. -/
def buildTimelineJson (aroll_id : String) (aroll_duration : ℚ)
    (allocations : List Allocation) (brollMap : List (String × BrollAsset)) :
    Timeline :=
  let insertions := allocations.map (mkInsertion brollMap)
  { aroll_id := aroll_id
    aroll_duration_sec := aroll_duration
    insertions := List.insertionSort insLE insertions }

/-- The duration-resolution rule as the source actually implements it:
the declared duration when the record is present and its declared
duration is nonzero, the default otherwise. -/
def resolveDuration (brollMap : List (String × BrollAsset)) (bid : String) : ℚ :=
  match brollFind brollMap bid with
  | some b => if b.duration_sec = 0 then DEFAULT_BROLL_DURATION else b.duration_sec
  | none => DEFAULT_BROLL_DURATION

/-! ## Renderer validity filtering (src/unnamed/part_002) -/

/-- The A-roll record fields `renderVideo` reads. -/
structure ARoll where
  aroll_id : String
  file_name : String
  file_path : String
deriving DecidableEq

/-- The per-insertion validity test of `renderVideo`
(src/unnamed/part_002, lines 47-61): the B-roll record must be in the
map and its file must exist on disk. -/
def insertionValid (fsExists : String → Bool)
    (brollMap : List (String × BrollAsset)) (ins : Insertion) : Bool :=
  match brollFind brollMap ins.broll_id with
  | some b => fsExists b.file_path
  | none => false

/-- Function `renderVideo` (src/unnamed/part_002, lines 17-137), modelled up to the
external encode: the filesystem is the predicate `fsExists` (with
`path.resolve` abstracted to the identity, paths taken as given); a
missing A-roll file rejects the promise before any graph construction
(line 38); otherwise each insertion whose B-roll record is absent from
the map or whose file is missing is skipped with a warning (lines 55-60),
and the external ffmpeg encode — whose success is outside this code — is
modelled as resolving, carrying the list of insertions actually overlaid. -/
def renderVideo (fsExists : String → Bool) (timeline : Timeline)
    (brollMap : List (String × BrollAsset)) (aroll : ARoll) :
    Except String (List Insertion) :=
  if fsExists aroll.file_path then
    Except.ok (timeline.insertions.filter (insertionValid fsExists brollMap))
  else
    Except.error ("A-roll file not found: " ++ aroll.file_path)

/-! ## Cleanup scheduler (src/router/pipeline.route.js, lines 332-342) -/

/-- The render cleanup time-to-live: the hard-coded `5 * 60 * 1000` milliseconds. -/
def RENDER_CLEANUP_TTL_MS : ℚ := 5 * 60 * 1000

/-- What one firing of the cleanup callback amounts to. -/
inductive CleanupOutcome where
  | deleted
  | alreadyMissing
  | failureLogged
deriving DecidableEq

/-- The cleanup callback body (pipeline.route.js, lines 334-341):
`existsSync` then `unlinkSync` inside `try`/`catch`.  `fsExists p` tells
whether `p` exists at fire time; `unlinkOk p` tells whether deleting `p`
succeeds or throws.  The function is total: the `catch` converts a
deletion failure into a logged outcome, and a file already missing takes
the silent success path (the `if` without an `else`). -/
def cleanupCallback (fsExists unlinkOk : String → Bool) (path : String) :
    CleanupOutcome :=
  if fsExists path then
    if unlinkOk path then CleanupOutcome.deleted else CleanupOutcome.failureLogged
  else
    CleanupOutcome.alreadyMissing

/-- A pending `setTimeout` timer: its fire time and whether it has fired.
JavaScript timers fire at most once at or after their deadline. -/
structure CleanupTimer where
  fireAt : ℚ
  fired : Bool
deriving DecidableEq

/-- The call `setTimeout(cleanup, ttl)` issued at time `now`
(pipeline.route.js, line 333). -/
def scheduleCleanup (now ttl : ℚ) : CleanupTimer :=
  { fireAt := now + ttl, fired := false }

/-- The event loop offering the timer a chance to fire at time `now`:
it runs the callback only if the deadline has passed and it has not
fired before, and it never fires again afterwards. -/
def fireCleanup (t : CleanupTimer) (now : ℚ) (fsExists unlinkOk : String → Bool)
    (path : String) : CleanupTimer × Option CleanupOutcome :=
  if t.fired = false ∧ t.fireAt ≤ now then
    ({ t with fired := true }, some (cleanupCallback fsExists unlinkOk path))
  else
    (t, none)

/-! ## Cosine similarity (src/unnamed/part_004, lines 14-34)

The JavaScript doubles are idealised as exact arithmetic: vector entries
are rationals and the result is a real number, since `Math.sqrt` leaves
the rationals.  A `null`/`undefined` vector argument is `none`. -/

/-- The `dotProduct` accumulator of the loop at lines 23-27. -/
def dotProduct (a b : List ℚ) : ℚ :=
  (a.zip b).foldl (fun acc p => acc + p.1 * p.2) 0

/-- The `normA`/`normB` accumulator of the same loop: the sum of squares
(the squared euclidean norm). -/
def sqNorm (a : List ℚ) : ℚ :=
  a.foldl (fun acc x => acc + x * x) 0

/-- Function `cosineSimilarity` (src/unnamed/part_004, lines 14-34): guard
clauses first, then the `denominator === 0` check, then the division. -/
noncomputable def cosineSimilarity (vecA vecB : Option (List ℚ)) : ℝ :=
  match vecA, vecB with
  | some a, some b =>
    if a.length ≠ b.length ∨ a.length = 0 then 0
    else
      let denominator := Real.sqrt (sqNorm a) * Real.sqrt (sqNorm b)
      if denominator = 0 then 0
      else (dotProduct a b : ℝ) / denominator
  | _, _ => 0

/-! ## Concrete instances used by witnesses and counterexamples -/

/-- An allocation at second 5 (Scenario B input, first element). -/
def scenarioBAlloc5 : Allocation :=
  { aroll_id := "a1", segment_id := "s5", start_sec := 5, broll_id := "b5"
    broll_description := "city skyline", segment_text := "a busy morning"
    confidence := 0.7 }

/-- An allocation at second 1 (Scenario B input, second element). -/
def scenarioBAlloc1 : Allocation :=
  { aroll_id := "a1", segment_id := "s6", start_sec := 1, broll_id := "b6"
    broll_description := "harbor cranes", segment_text := "shipping routes"
    confidence := 0.6 }

/-- A stored B-roll record whose declared `duration_sec` is `0`, a falsy
JavaScript number. -/
def zeroDurationAsset : BrollAsset :=
  { broll_id := "b0", description := "drone shot", duration_sec := 0
    file_path := "b0.mp4" }

/-- A media-asset map containing `zeroDurationAsset` under its id. -/
def zeroDurationMap : List (String × BrollAsset) := [("b0", zeroDurationAsset)]

/-- An allocation referencing the zero-duration B-roll record. -/
def zeroDurationAlloc : Allocation :=
  { aroll_id := "a1", segment_id := "s1", start_sec := 1, broll_id := "b0"
    broll_description := "drone shot", segment_text := "aerial view"
    confidence := 0.5 }

/-- A filesystem on which only the A-roll file and `b1.mp4` exist. -/
def wRenderFs : String → Bool := fun p => p == "aroll.mp4" || p == "b1.mp4"

/-- A B-roll record whose file exists on `wRenderFs`. -/
def wRenderAsset1 : BrollAsset :=
  { broll_id := "b1", description := "d1", duration_sec := 3, file_path := "b1.mp4" }

/-- A B-roll record whose file is absent on `wRenderFs`. -/
def wRenderAsset3 : BrollAsset :=
  { broll_id := "b3", description := "d3", duration_sec := 3, file_path := "b3.mp4" }

/-- A media-asset map holding `b1` (file present) and `b3` (file absent);
`b2` has no record at all. -/
def wRenderMap : List (String × BrollAsset) :=
  [("b1", wRenderAsset1), ("b3", wRenderAsset3)]

/-- Insertion referencing `b1`: record present, file present. -/
def wRenderIns1 : Insertion :=
  { start_sec := 2, duration_sec := 3, broll_id := "b1", confidence := 0.9
    reason := "r1" }

/-- Insertion referencing `b2`: no record in the map. -/
def wRenderIns2 : Insertion :=
  { start_sec := 6, duration_sec := 3, broll_id := "b2", confidence := 0.8
    reason := "r2" }

/-- Insertion referencing `b3`: record present but its file is absent. -/
def wRenderIns3 : Insertion :=
  { start_sec := 12, duration_sec := 3, broll_id := "b3", confidence := 0.7
    reason := "r3" }

/-- A timeline holding one valid and two invalid insertions. -/
def wRenderTimeline : Timeline :=
  { aroll_id := "a1", aroll_duration_sec := 60
    insertions := [wRenderIns1, wRenderIns2, wRenderIns3] }

/-- The A-roll record for the render witness; its file exists. -/
def wRenderAroll : ARoll :=
  { aroll_id := "a1", file_name := "aroll.mp4", file_path := "aroll.mp4" }

/-- A filesystem on which the artifact is already missing at fire time. -/
def wCleanupFs : String → Bool := fun _ => false

/-- A deletion primitive that always succeeds. -/
def wCleanupUnlink : String → Bool := fun _ => true

/-- The loop invariant of `allocateBrolls`: every accepted allocation's
B-roll is tracked in the used set, every accepted allocation is tracked
in its A-roll's insertion list, no two accepted allocations share a
B-roll, and any two accepted allocations on the same A-roll are at
least `minGapSeconds` apart. -/
def AllocInv (cfg : Config) (st : AllocState) : Prop :=
  (∀ a ∈ st.allocations, a.broll_id ∈ st.usedBrolls) ∧
  (∀ a ∈ st.allocations, a ∈ (mapGet st.arollInsertions a.aroll_id).getD []) ∧
  st.allocations.Pairwise (fun a b => a.broll_id ≠ b.broll_id) ∧
  st.allocations.Pairwise (fun a b =>
    a.aroll_id = b.aroll_id → cfg.minGapSeconds ≤ |a.start_sec - b.start_sec|)

/-! ## Theorems -/

/-- Two of the facts `canAllocate cfg m u ai = true` carries: constraint 1
passed, so `m`'s B-roll is not in the used set; and constraint 4 passed,
so `m`'s start is at least `minGapSeconds` away from every allocation
already accepted on `m`'s A-roll. -/
theorem canAllocate_spec {cfg : Config} {m : Match} {u : List String}
    {ai : List (String × List Allocation)} (h : canAllocate cfg m u ai = true) :
    m.broll_id ∉ u ∧
    ∀ ex ∈ (mapGet ai m.aroll_id).getD [],
      cfg.minGapSeconds ≤ |m.segment_start - ex.start_sec| := by
  simp only [canAllocate] at h
  by_cases h1 : m.broll_id ∈ u
  · simp [h1] at h
  · rw [if_neg h1] at h
    by_cases h2 : m.similarity < cfg.minConfidence
    · simp [h2] at h
    · rw [if_neg h2] at h
      by_cases h3 : cfg.maxInsertionsPerAroll ≤ ((mapGet ai m.aroll_id).getD []).length
      · simp [h3] at h
      · rw [if_neg h3] at h
        refine ⟨h1, fun ex hex => ?_⟩
        have := List.all_eq_true.mp h ex hex
        simpa [not_lt] using this

/-- Pushing an allocation under key `k` appends it to `k`'s list (created
as the empty list when absent) and leaves every other key unchanged. -/
theorem mapGet_mapPush (m : List (String × List Allocation)) (k k' : String)
    (a : Allocation) :
    mapGet (mapPush m k a) k' =
      if k' = k then some ((mapGet m k).getD [] ++ [a]) else mapGet m k' := by
  induction m with
  | nil =>
    by_cases hk : k' = k
    · subst hk; simp [mapPush, mapGet]
    · simp [mapPush, mapGet, hk, Ne.symm hk]
  | cons p t ih =>
    obtain ⟨k₀, v⟩ := p
    by_cases h0 : k₀ = k
    · subst h0
      by_cases hk : k' = k₀
      · subst hk; simp [mapPush, mapGet]
      · simp [mapPush, mapGet, hk, Ne.symm hk]
    · by_cases hk : k₀ = k'
      · subst hk
        simp [mapPush, mapGet, h0]
      · simp [mapPush, mapGet, h0, hk, ih]

/-- One allocator iteration preserves the loop invariant. -/
theorem allocStep_inv {cfg : Config} {st : AllocState} {m : Match}
    (h : AllocInv cfg st) : AllocInv cfg (allocStep cfg st m) := by
  unfold allocStep
  by_cases hc : canAllocate cfg m st.usedBrolls st.arollInsertions = true
  · rw [if_pos hc]
    obtain ⟨h1, h2, h3, h4⟩ := h
    obtain ⟨hnotused, hgap⟩ := canAllocate_spec hc
    refine ⟨?_, ?_, ?_, ?_⟩
    · intro a ha
      rcases List.mem_append.mp ha with ha | ha
      · exact List.mem_append_left _ (h1 a ha)
      · rcases List.mem_singleton.mp ha with rfl
        exact List.mem_append_right _ (List.mem_singleton.mpr rfl)
    · intro a ha
      rcases List.mem_append.mp ha with ha | ha
      · rw [mapGet_mapPush]
        by_cases hk : a.aroll_id = m.aroll_id
        · rw [if_pos hk, Option.getD_some]
          exact List.mem_append_left _ (hk ▸ h2 a ha)
        · rw [if_neg hk]
          exact h2 a ha
      · rcases List.mem_singleton.mp ha with rfl
        rw [show (toAllocation m).aroll_id = m.aroll_id from rfl, mapGet_mapPush,
          if_pos rfl, Option.getD_some]
        exact List.mem_append_right _ (List.mem_singleton.mpr rfl)
    · rw [List.pairwise_append]
      refine ⟨h3, List.pairwise_singleton _ _, ?_⟩
      intro a ha b hb
      rcases List.mem_singleton.mp hb with rfl
      intro heq
      have heq' : a.broll_id = m.broll_id := heq
      exact hnotused (heq' ▸ h1 a ha)
    · rw [List.pairwise_append]
      refine ⟨h4, List.pairwise_singleton _ _, ?_⟩
      intro a ha b hb
      rcases List.mem_singleton.mp hb with rfl
      intro hk
      have hk' : a.aroll_id = m.aroll_id := hk
      have hmem : a ∈ (mapGet st.arollInsertions m.aroll_id).getD [] :=
        hk' ▸ h2 a ha
      have := hgap a hmem
      calc cfg.minGapSeconds ≤ |m.segment_start - a.start_sec| := this
        _ = |a.start_sec - (toAllocation m).start_sec| := by
            rw [show (toAllocation m).start_sec = m.segment_start from rfl, abs_sub_comm]
  · rw [if_neg hc]
    exact h

/-- C3: running `allocateBrolls` on the Scenario A candidates — `b1@2`
with confidence 0.9, `b2@3` with 0.8, `b1@10` with 0.95, in that order,
under the default configuration (`min_gap` 4, `max` 5, `min_confidence`
0.45) — accepts exactly the single allocation `b1` at `start_sec` 2 with
confidence 0.9; `b2@3` is rejected even though `b2` is unused, because
its gap to the accepted start 2 is 1 < 4, and `b1@10` is rejected
because `b1` is already in the used set. -/
theorem scenarioA_allocation :
    (allocateBrolls defaultConfig scenarioA).allocations =
      [{ aroll_id := "a1", segment_id := "s1", start_sec := 2, broll_id := "b1",
         broll_description := "d1", segment_text := "t1", confidence := 0.9 }] ∧
    canAllocate defaultConfig scenarioAMatch2 scenarioASt1.usedBrolls
      scenarioASt1.arollInsertions = false ∧
    scenarioAMatch2.broll_id ∉ scenarioASt1.usedBrolls ∧
    defaultConfig.minConfidence ≤ scenarioAMatch2.similarity ∧
    |scenarioAMatch2.segment_start - scenarioAMatch1.segment_start| <
      defaultConfig.minGapSeconds ∧
    canAllocate defaultConfig scenarioAMatch3 scenarioASt2.usedBrolls
      scenarioASt2.arollInsertions = false ∧
    scenarioAMatch3.broll_id ∈ scenarioASt2.usedBrolls := by
  with_unfolding_all decide

/-- C5: `allocateBrolls` is deterministic — the same sorted candidate
list under the same configuration yields the identical allocation set
and statistics, which in this pure embedding of the source (whose only
state, `usedBrolls`/`arollInsertions`, is created afresh inside each
call) is definitional. -/
theorem allocateBrolls_deterministic (cfg : Config) (ms : List Match) :
    allocateBrolls cfg ms = allocateBrolls cfg ms :=
  rfl

/-- The loop invariant holds after folding the allocation step over any
candidate list, from any state satisfying it. -/
theorem foldl_allocStep_inv (cfg : Config) (ms : List Match) (st : AllocState)
    (h : AllocInv cfg st) : AllocInv cfg (ms.foldl (allocStep cfg) st) := by
  induction ms generalizing st with
  | nil => exact h
  | cons m t ih => exact ih _ (allocStep_inv h)

/-- The empty initial state satisfies the loop invariant. -/
theorem allocInv_init (cfg : Config) : AllocInv cfg ⟨[], [], []⟩ := by
  refine ⟨?_, ?_, ?_, ?_⟩ <;> simp

/-- C1: across the whole allocation set returned by `allocateBrolls` —
globally, not merely within one A-roll — no two accepted allocations
carry the same `broll_id`. -/
theorem allocateBrolls_broll_unique (cfg : Config) (ms : List Match) :
    (allocateBrolls cfg ms).allocations.Pairwise
      (fun a b => a.broll_id ≠ b.broll_id) :=
  (foldl_allocStep_inv cfg ms ⟨[], [], []⟩ (allocInv_init cfg)).2.2.1

/-- C2: in the allocation set returned by `allocateBrolls`, any two
accepted allocations sharing an `aroll_id` have starts at least
`minGapSeconds` apart. -/
theorem allocateBrolls_min_gap (cfg : Config) (ms : List Match) :
    (allocateBrolls cfg ms).allocations.Pairwise
      (fun a b => a.aroll_id = b.aroll_id →
        cfg.minGapSeconds ≤ |a.start_sec - b.start_sec|) :=
  (foldl_allocStep_inv cfg ms ⟨[], [], []⟩ (allocInv_init cfg)).2.2.2

/-- C9: the allocation set is an order-preserving selection of the
input: it is a sublist of the input matches each promoted by
`toAllocation`, which copies `aroll_id`, `segment_id` and `broll_id`
verbatim and sets `start_sec` to the match's `segment_start` and
`confidence` to its `similarity`. -/
theorem allocateBrolls_sublist (cfg : Config) (ms : List Match) :
    (allocateBrolls cfg ms).allocations.Sublist (ms.map toAllocation) := by
  have key : ∀ (l : List Match) (st : AllocState),
      (l.foldl (allocStep cfg) st).allocations.Sublist
        (st.allocations ++ l.map toAllocation) := by
    intro l
    induction l with
    | nil => intro st; simp
    | cons m t ih =>
      intro st
      have h2 : (allocStep cfg st m).allocations.Sublist
          (st.allocations ++ [toAllocation m]) := by
        unfold allocStep
        split
        · exact List.Sublist.refl _
        · exact List.sublist_append_left _ _
      have h3 := ih (allocStep cfg st m)
      have h4 := h2.append_right (t.map toAllocation)
      have h5 := h3.trans h4
      simpa using h5
  simpa using key ms ⟨[], [], []⟩

/-- C4: the insertions array of the timeline returned by
`buildTimelineJson` is sorted non-decreasing by `start_sec` for every
input, whatever the order of the allocations; in particular, an input
whose `start_sec` values arrive as `[5, 1]` comes out ordered `[1, 5]`. -/
theorem buildTimelineJson_sorted :
    (∀ (aid : String) (adur : ℚ) (allocs : List Allocation)
      (bm : List (String × BrollAsset)),
      (buildTimelineJson aid adur allocs bm).insertions.Pairwise
        (fun a b => a.start_sec ≤ b.start_sec)) ∧
    (buildTimelineJson "a1" 30 [scenarioBAlloc5, scenarioBAlloc1] []).insertions.map
        Insertion.start_sec = [1, 5] := by
  constructor
  · intro aid adur allocs bm
    exact List.sorted_insertionSort insLE (allocs.map (mkInsertion bm))
  · with_unfolding_all decide

/-- C6 counterexample: a B-roll record that is present in the map but
declares `duration_sec = 0` (a falsy JavaScript number) makes
`buildTimelineJson` emit the default duration 5, not the declared 0 —
so a present record does not always contribute its declared duration,
and the default is not used only when the record is absent. -/
theorem buildTimeline_duration_counterexample :
    brollFind zeroDurationMap "b0" = some zeroDurationAsset ∧
    zeroDurationAsset.duration_sec = 0 ∧
    (buildTimelineJson "a1" 100 [zeroDurationAlloc] zeroDurationMap).insertions.map
      Insertion.duration_sec = [DEFAULT_BROLL_DURATION] ∧
    DEFAULT_BROLL_DURATION ≠ 0 := by
  with_unfolding_all decide

/-- C6 as amended: an insertion's `duration_sec` is the declared duration
of its B-roll record when that record is present in the map with a
nonzero declared duration, and the default `DEFAULT_BROLL_DURATION`
when the record is absent or its declared duration is zero — the rule
`resolveDuration` implements. -/
theorem buildTimeline_duration_resolution (aid : String) (adur : ℚ)
    (allocs : List Allocation) (bm : List (String × BrollAsset)) :
    ∀ ins ∈ (buildTimelineJson aid adur allocs bm).insertions,
      ins.duration_sec = resolveDuration bm ins.broll_id := by
  intro ins hins
  have hperm := List.perm_insertionSort insLE (allocs.map (mkInsertion bm))
  have hmem : ins ∈ allocs.map (mkInsertion bm) := hperm.subset hins
  obtain ⟨alloc, _, rfl⟩ := List.mem_map.mp hmem
  show (mkInsertion bm alloc).duration_sec = resolveDuration bm alloc.broll_id
  unfold mkInsertion resolveDuration
  cases h : brollFind bm alloc.broll_id <;> simp [h]

/-- Witness for the amended C6 at a concrete input: the single insertion
built over the zero-duration record obeys `resolveDuration`. -/
theorem buildTimeline_duration_resolution_witness :
    mkInsertion zeroDurationMap zeroDurationAlloc ∈
      (buildTimelineJson "a1" 100 [zeroDurationAlloc] zeroDurationMap).insertions ∧
    (mkInsertion zeroDurationMap zeroDurationAlloc).duration_sec =
      resolveDuration zeroDurationMap
        (mkInsertion zeroDurationMap zeroDurationAlloc).broll_id := by
  have hmem : mkInsertion zeroDurationMap zeroDurationAlloc ∈
      (buildTimelineJson "a1" 100 [zeroDurationAlloc] zeroDurationMap).insertions :=
    List.mem_singleton.mpr rfl
  exact ⟨hmem, buildTimeline_duration_resolution "a1" 100 [zeroDurationAlloc]
    zeroDurationMap _ hmem⟩

/-- C7: when the A-roll's own file exists, `renderVideo` resolves (it
never rejects on account of an insertion), and an insertion makes it
into the render exactly when it is in the timeline, its B-roll record
is in the map and that record's file exists — every insertion with a
missing record or missing file is skipped rather than raised. -/
theorem renderVideo_skips_invalid (fs : String → Bool) (tl : Timeline)
    (bm : List (String × BrollAsset)) (ar : ARoll)
    (h : fs ar.file_path = true) :
    renderVideo fs tl bm ar =
      Except.ok (tl.insertions.filter (insertionValid fs bm)) ∧
    ∀ ins, ins ∈ tl.insertions.filter (insertionValid fs bm) ↔
      (ins ∈ tl.insertions ∧
        ∃ b, brollFind bm ins.broll_id = some b ∧ fs b.file_path = true) := by
  constructor
  · unfold renderVideo
    rw [if_pos h]
  · intro ins
    rw [List.mem_filter]
    constructor
    · rintro ⟨hmem, hval⟩
      refine ⟨hmem, ?_⟩
      unfold insertionValid at hval
      cases hb : brollFind bm ins.broll_id with
      | none => rw [hb] at hval; cases hval
      | some b => rw [hb] at hval; exact ⟨b, rfl, hval⟩
    · rintro ⟨hmem, b, hb, hfs⟩
      refine ⟨hmem, ?_⟩
      unfold insertionValid
      rw [hb]
      exact hfs

/-- Witness for C7: on a filesystem where the A-roll file exists, a
timeline carrying one fully valid insertion, one whose B-roll record is
absent from the map and one whose B-roll file is absent on disk renders
successfully with exactly the valid insertion. -/
theorem renderVideo_skips_invalid_witness :
    wRenderFs wRenderAroll.file_path = true ∧
    renderVideo wRenderFs wRenderTimeline wRenderMap wRenderAroll =
      Except.ok [wRenderIns1] ∧
    (renderVideo wRenderFs wRenderTimeline wRenderMap wRenderAroll =
      Except.ok (wRenderTimeline.insertions.filter
        (insertionValid wRenderFs wRenderMap)) ∧
    ∀ ins, ins ∈ wRenderTimeline.insertions.filter
        (insertionValid wRenderFs wRenderMap) ↔
      (ins ∈ wRenderTimeline.insertions ∧
        ∃ b, brollFind wRenderMap ins.broll_id = some b ∧
          wRenderFs b.file_path = true)) :=
  ⟨by with_unfolding_all decide, by with_unfolding_all rfl,
   renderVideo_skips_invalid wRenderFs wRenderTimeline wRenderMap wRenderAroll
     (by with_unfolding_all decide)⟩

/-- C8: the cleanup scheduled at `now` with time-to-live `ttl` fires
exactly once — it yields the callback's outcome the first time it is
offered at or past its deadline, never again afterwards, and never
before the deadline — and the callback is total: a file already missing
at fire time is the silent-success outcome, a deletion failure is the
logged outcome (the `catch` swallows it; nothing re-raises or retries),
and otherwise the file is deleted. -/
theorem scheduleCleanup_fires_once (now ttl fireTime : ℚ)
    (fs unlinkOk : String → Bool) (p : String)
    (h : now + ttl ≤ fireTime) :
    (fireCleanup (scheduleCleanup now ttl) fireTime fs unlinkOk p).2 =
      some (cleanupCallback fs unlinkOk p) ∧
    (∀ t2 : ℚ, (fireCleanup
        (fireCleanup (scheduleCleanup now ttl) fireTime fs unlinkOk p).1
        t2 fs unlinkOk p).2 = none) ∧
    (∀ t1 : ℚ, t1 < now + ttl →
      (fireCleanup (scheduleCleanup now ttl) t1 fs unlinkOk p).2 = none) ∧
    (fs p = false → cleanupCallback fs unlinkOk p = CleanupOutcome.alreadyMissing) ∧
    (fs p = true → unlinkOk p = false →
      cleanupCallback fs unlinkOk p = CleanupOutcome.failureLogged) ∧
    (fs p = true → unlinkOk p = true →
      cleanupCallback fs unlinkOk p = CleanupOutcome.deleted) := by
  refine ⟨?_, ?_, ?_, ?_, ?_, ?_⟩
  · unfold fireCleanup scheduleCleanup
    rw [if_pos ⟨rfl, h⟩]
  · intro t2
    have h1 : (fireCleanup (scheduleCleanup now ttl) fireTime fs unlinkOk p).1 =
        { fireAt := now + ttl, fired := true } := by
      unfold fireCleanup scheduleCleanup
      rw [if_pos ⟨rfl, h⟩]
    rw [h1]
    unfold fireCleanup
    rw [if_neg]
    rintro ⟨h2, -⟩
    exact absurd h2 (by simp)
  · intro t1 h1
    unfold fireCleanup scheduleCleanup
    rw [if_neg]
    rintro ⟨-, h2⟩
    exact absurd h2 (not_le.mpr h1)
  · intro hfs
    unfold cleanupCallback
    rw [if_neg (by simp [hfs])]
  · intro hfs hu
    unfold cleanupCallback
    rw [if_pos hfs, if_neg (by simp [hu])]
  · intro hfs hu
    unfold cleanupCallback
    rw [if_pos hfs, if_pos hu]

/-- Witness for C8 at a concrete input: a cleanup scheduled at time 0
with the source's 300000 ms time-to-live, fired at the deadline on a
filesystem where the artifact is already gone, yields the
silent-success outcome. -/
theorem scheduleCleanup_fires_once_witness :
    (0 : ℚ) + RENDER_CLEANUP_TTL_MS ≤ RENDER_CLEANUP_TTL_MS ∧
    ((fireCleanup (scheduleCleanup 0 RENDER_CLEANUP_TTL_MS) RENDER_CLEANUP_TTL_MS
        wCleanupFs wCleanupUnlink "exports/final_abc.mp4").2 =
      some (cleanupCallback wCleanupFs wCleanupUnlink "exports/final_abc.mp4") ∧
    (∀ t2 : ℚ, (fireCleanup
        (fireCleanup (scheduleCleanup 0 RENDER_CLEANUP_TTL_MS) RENDER_CLEANUP_TTL_MS
          wCleanupFs wCleanupUnlink "exports/final_abc.mp4").1
        t2 wCleanupFs wCleanupUnlink "exports/final_abc.mp4").2 = none) ∧
    (∀ t1 : ℚ, t1 < 0 + RENDER_CLEANUP_TTL_MS →
      (fireCleanup (scheduleCleanup 0 RENDER_CLEANUP_TTL_MS) t1
        wCleanupFs wCleanupUnlink "exports/final_abc.mp4").2 = none) ∧
    (wCleanupFs "exports/final_abc.mp4" = false →
      cleanupCallback wCleanupFs wCleanupUnlink "exports/final_abc.mp4" =
        CleanupOutcome.alreadyMissing) ∧
    (wCleanupFs "exports/final_abc.mp4" = true →
      wCleanupUnlink "exports/final_abc.mp4" = false →
      cleanupCallback wCleanupFs wCleanupUnlink "exports/final_abc.mp4" =
        CleanupOutcome.failureLogged) ∧
    (wCleanupFs "exports/final_abc.mp4" = true →
      wCleanupUnlink "exports/final_abc.mp4" = true →
      cleanupCallback wCleanupFs wCleanupUnlink "exports/final_abc.mp4" =
        CleanupOutcome.deleted)) :=
  ⟨by with_unfolding_all decide,
   scheduleCleanup_fires_once 0 RENDER_CLEANUP_TTL_MS RENDER_CLEANUP_TTL_MS
     wCleanupFs wCleanupUnlink "exports/final_abc.mp4"
     (by with_unfolding_all decide)⟩

/-- The squared norm, a sum of squares, is never negative. -/
theorem sqNorm_nonneg (a : List ℚ) : 0 ≤ sqNorm a := by
  have key : ∀ (l : List ℚ) (c : ℚ), c ≤ l.foldl (fun acc x => acc + x * x) c := by
    intro l
    induction l with
    | nil => intro c; exact le_refl c
    | cons x t ih =>
      intro c
      calc c ≤ c + x * x := le_add_of_nonneg_right (mul_self_nonneg x)
        _ ≤ t.foldl (fun acc y => acc + y * y) (c + x * x) := ih _
  exact key a 0

/-- C10: `cosineSimilarity` is total and never divides by zero — it
returns 0 when either vector is null, when the lengths differ, when the
vectors are empty and when either vector's norm is zero (the
`denominator === 0` guard catches exactly the zero-norm case), and
otherwise it returns the dot product divided by the product of the
norms, whose denominator is provably nonzero. -/
theorem cosineSimilarity_total (vecA vecB : Option (List ℚ)) :
    (vecA = none ∨ vecB = none → cosineSimilarity vecA vecB = 0) ∧
    (∀ a b, vecA = some a → vecB = some b →
      ((a.length ≠ b.length ∨ a.length = 0 ∨ sqNorm a = 0 ∨ sqNorm b = 0) →
        cosineSimilarity vecA vecB = 0) ∧
      (a.length = b.length → a.length ≠ 0 → sqNorm a ≠ 0 → sqNorm b ≠ 0 →
        Real.sqrt (sqNorm a : ℝ) * Real.sqrt (sqNorm b : ℝ) ≠ 0 ∧
        cosineSimilarity vecA vecB =
          (dotProduct a b : ℝ) /
            (Real.sqrt (sqNorm a : ℝ) * Real.sqrt (sqNorm b : ℝ)))) := by
  constructor
  · rintro (rfl | rfl)
    · rfl
    · cases vecA <;> rfl
  · rintro a b rfl rfl
    constructor
    · rintro (hlen | hlen | hn | hn)
      · simp only [cosineSimilarity]
        rw [if_pos (Or.inl hlen)]
      · simp only [cosineSimilarity]
        rw [if_pos (Or.inr hlen)]
      · by_cases hg : a.length ≠ b.length ∨ a.length = 0
        · simp only [cosineSimilarity]
          rw [if_pos hg]
        · simp only [cosineSimilarity]
          rw [if_neg hg, if_pos (show Real.sqrt (sqNorm a : ℝ) *
              Real.sqrt (sqNorm b : ℝ) = 0 by rw [hn]; simp)]
      · by_cases hg : a.length ≠ b.length ∨ a.length = 0
        · simp only [cosineSimilarity]
          rw [if_pos hg]
        · simp only [cosineSimilarity]
          rw [if_neg hg, if_pos (show Real.sqrt (sqNorm a : ℝ) *
              Real.sqrt (sqNorm b : ℝ) = 0 by rw [hn]; simp)]
    · intro hlen hne hna hnb
      have hpa : (0 : ℝ) < Real.sqrt (sqNorm a : ℝ) :=
        Real.sqrt_pos.mpr
          (by exact_mod_cast lt_of_le_of_ne (sqNorm_nonneg a) (Ne.symm hna))
      have hpb : (0 : ℝ) < Real.sqrt (sqNorm b : ℝ) :=
        Real.sqrt_pos.mpr
          (by exact_mod_cast lt_of_le_of_ne (sqNorm_nonneg b) (Ne.symm hnb))
      have hd : Real.sqrt (sqNorm a : ℝ) * Real.sqrt (sqNorm b : ℝ) ≠ 0 :=
        ne_of_gt (mul_pos hpa hpb)
      have hg : ¬(a.length ≠ b.length ∨ a.length = 0) := by
        push_neg
        exact ⟨hlen, hne⟩
      refine ⟨hd, ?_⟩
      simp only [cosineSimilarity, if_neg hg]
      rw [if_neg hd]

/-- Witness for C10: on the one-entry vectors `[1]` and `[1]` the
nonzero-norm branch applies, and a null first vector yields 0. -/
theorem cosineSimilarity_total_witness :
    cosineSimilarity (some [(1 : ℚ)]) (some [(1 : ℚ)]) =
      (dotProduct [(1 : ℚ)] [(1 : ℚ)] : ℝ) /
        (Real.sqrt (sqNorm [(1 : ℚ)] : ℝ) * Real.sqrt (sqNorm [(1 : ℚ)] : ℝ)) ∧
    cosineSimilarity none (some [(1 : ℚ)]) = 0 :=
  ⟨(((cosineSimilarity_total (some [(1 : ℚ)]) (some [(1 : ℚ)])).2
      [(1 : ℚ)] [(1 : ℚ)] rfl rfl).2 rfl (by decide)
      (by with_unfolding_all decide) (by with_unfolding_all decide)).2,
   (cosineSimilarity_total none (some [(1 : ℚ)])).1 (Or.inl rfl)⟩

end SmartBroll
